import Mathlib

/-!
Shallow embedding of `src/utils/gpu-filter-utils.js` (kepler.gl GPU filter
channel allocator) and proofs about the claims of its specification.

Modelling conventions:

* JavaScript array slots holding channel indices are modelled by
  `Option JsVal`: `none` is a hole / out-of-bounds read (JS `undefined`),
  `some (JsVal.num n)` a finite number, `some JsVal.nullv` an explicitly
  stored non-finite value (`null`, an explicitly stored `undefined`, `NaN`).
  `Array.prototype.every` skips holes but applies its predicate to
  explicitly stored values; reading a hole or out of bounds yields
  `undefined`, which is not finite and is `===`-equal to no number.
* A filter's `gpuChannel` field is `Option (List (Option JsVal))`:
  `none` means the field is absent / `undefined` / `null`.
* `MAX_GPU_FILTERS` is the configurable capacity constant (kepler.gl ships 4);
  all definitions take it as an explicit first argument `maxG`.
* Row values read by the value accessor are modelled as `Option Int`
  (`none` = `null` / `undefined`).
-/

namespace GpuFilterUtils

/-- A JavaScript value stored in a `gpuChannel` array slot: a finite number,
or a stored non-finite value (`null` / stored `undefined` / `NaN`). -/
inductive JsVal where
  | num (n : Nat)
  | nullv
  deriving DecidableEq, Repr

/-- One slot of a JS array of channel indices; `none` is a hole. -/
abbrev Chan := Option JsVal

/-- Filter record, with the fields `gpu-filter-utils.js` reads. -/
structure Filter where
  id : Nat
  dataId : List String
  gpu : Bool
  gpuChannel : Option (List Chan)
  value : List Int
  domain : List Int
  name : List String
  fieldIdx : Nat
  mappedValue : Option (List (Option Int))
  deriving DecidableEq, Repr

/-- Reading `l[i]` on a JS array: a hole or an out-of-bounds index gives
`undefined` (`none`). -/
def jsGetChan (l : List Chan) (i : Nat) : Chan :=
  (l.get? i).join

/-- Reading `arrayfy(gc)[i]`: `arrayfy` (from `utils.js`, modelled from the
spec) wraps a non-array in a one-element array, so an absent `gpuChannel`
reads as `undefined` at every index. -/
def chanRead (gc : Option (List Chan)) (i : Nat) : Chan :=
  match gc with
  | some l => jsGetChan l i
  | none => none

/-- Writing `l[i] = num v` on a JS array: in-bounds writes replace the slot,
out-of-bounds writes extend the array with holes up to index `i`. -/
def jsWriteChan (l : List Chan) (i : Nat) (v : Nat) : List Chan :=
  if i < l.length then l.set i (some (JsVal.num v))
  else l ++ List.replicate (i - l.length) none ++ [some (JsVal.num v)]

/-- `Number.isFinite` on the value read from a channel slot. -/
def isFiniteChan : Chan → Bool
  | some (JsVal.num _) => true
  | _ => false

/-- `gpuChannel.every(Number.isFinite)`: `Array.prototype.every` skips holes
(`none`) and tests stored values; stored non-finite values fail. -/
def jsEveryFinite (l : List Chan) : Bool :=
  l.all fun e =>
    match e with
    | none => true
    | some (JsVal.num _) => true
    | some JsVal.nullv => false

/-- Modelled from the spec: `set(['gpu'], b, f)` from `utils.js` (not under
`src/`) returns a copy of the filter with only the `gpu` field replaced. -/
def setGpu (b : Bool) (f : Filter) : Filter :=
  { f with gpu := b }

/-- The per-filter predicate `findGpuChannel(channel)` built inside
`assignGpuChannel` (lines 73–81): another filter conflicts at `channel`
for dataset `dataId` iff it has a different id, touches the dataset, is a
GPU filter, and its channel at the dataset's position in its own `dataId`
equals the candidate. -/
def findGpuChannel (dataId : String) (channel : Nat) (filterId : Nat) (f : Filter) : Bool :=
  f.id != filterId &&
  f.dataId.contains dataId &&
  f.gpu &&
  (chanRead f.gpuChannel (f.dataId.indexOf dataId) == some (JsVal.num channel))

/-- Truthiness of `filters.find(findGpuChannel(channel))`: filter objects are
always truthy, so the `find` is truthy iff some element matches. -/
def hasGpuChannelConflict (dataId : String) (channel : Nat)
    (filters : List Filter) (filter : Filter) : Bool :=
  filters.any (findGpuChannel dataId channel filter.id)

/-- The `while (i < MAX_GPU_FILTERS)` scan: first channel index in
`[0, maxG)` with no conflict. -/
def firstFreeChannel (maxG : Nat) (dataId : String)
    (filters : List Filter) (filter : Filter) : Option Nat :=
  (List.range maxG).find? fun i => !hasGpuChannelConflict dataId i filters filter

/-- Body of `filter.dataId.forEach((dataId, datasetIdx) => ...)` in
`assignGpuChannel`: keep an already finite, conflict-free slot; otherwise
write the first free channel; if every channel conflicts, leave the slot
untouched. -/
def assignChannelAt (maxG : Nat) (filters : List Filter) (filter : Filter)
    (gc : List Chan) (dataId : String) (datasetIdx : Nat) : List Chan :=
  match jsGetChan gc datasetIdx with
  | some (JsVal.num c) =>
    if !hasGpuChannelConflict dataId c filters filter then gc
    else
      match firstFreeChannel maxG dataId filters filter with
      | some i => jsWriteChan gc datasetIdx i
      | none => gc
  | _ =>
    match firstFreeChannel maxG dataId filters filter with
    | some i => jsWriteChan gc datasetIdx i
    | none => gc

/-- The full `forEach` over `filter.dataId`, threading the mutated
`gpuChannel` array (`filter.gpuChannel || []` as the starting value). -/
def assignAllChannels (maxG : Nat) (filters : List Filter) (filter : Filter) : List Chan :=
  (filter.dataId.foldl
    (fun (acc : List Chan × Nat) dataId =>
      (assignChannelAt maxG filters filter acc.1 dataId acc.2, acc.2 + 1))
    (filter.gpuChannel.getD [], 0)).1

/-- `assignGpuChannel` (lines 64–115). On the failure branch the source
returns `{...filter, gpu: false}`: the spread keeps the original
`gpuChannel` field, which aliases the array mutated in place by the loop,
so when the field was present it now holds the partially updated array. -/
def assignGpuChannel (maxG : Nat) (filter : Filter) (filters : List Filter) : Filter :=
  if !filter.gpu then filter
  else
    let gc := assignAllChannels maxG filters filter
    if gc.length == 0 || !jsEveryFinite gc then
      { filter with
        gpu := false
        gpuChannel := match filter.gpuChannel with
          | some _ => some gc
          | none => none }
    else
      { filter with gpuChannel := some gc }

/-- One step of the `reduce` in `assignGpuChannels`: process the filter at
`index` against the current accumulated collection. -/
def assignGpuChannelsAux (maxG : Nat) (accu : List Filter) : List Nat → List Filter
  | [] => accu
  | index :: rest =>
    match accu.get? index with
    | some f =>
      if f.gpu then
        assignGpuChannelsAux maxG (accu.set index (assignGpuChannel maxG f accu)) rest
      else
        assignGpuChannelsAux maxG accu rest
    | none => assignGpuChannelsAux maxG accu rest

/-- `assignGpuChannels` (lines 46–58): a `reduce` over all indices whose
accumulator starts as the input collection, replacing each GPU filter by
its `assignGpuChannel` result so later filters see earlier finalized
assignments. -/
def assignGpuChannels (maxG : Nat) (allFilters : List Filter) : List Filter :=
  assignGpuChannelsAux maxG allFilters (List.range allFilters.length)

/-- The channel a filter holds for dataset `d`: its `gpuChannel` entry at
the position of `d` in its `dataId` (the derived per-dataset assignment
relation of the spec). -/
def chanAtDataset (f : Filter) (d : String) : Chan :=
  chanRead f.gpuChannel (f.dataId.indexOf d)

/-- `setFilterGpuMode` (lines 29–44). The source writes
`return set(['gpu'], false, filter)` inside the `forEach` callback:
`Array.prototype.forEach` discards the callback's return value and `set`
does not mutate its argument, so the loop computes the values below and
throws them away; the function returns its input unchanged. -/
def setFilterGpuMode (maxG : Nat) (filter : Filter) (filters : List Filter) : Filter :=
  let _ := filter.dataId.map fun dataId =>
    let gpuFilters := filters.filter fun f => f.dataId.contains dataId && f.gpu
    if filter.gpu && gpuFilters.length == maxG then
      some (setGpu false filter)
    else
      none
  filter

/-- One step of the `arrayfy(f.dataId).forEach` in `resetFilterGpuMode`:
`count === MAX_GPU_FILTERS` flips the local `gpu` flag (and does not
increment); otherwise the per-dataset count is incremented
(`count ? count + 1 : 1`, with absent modelled as `none`). The loop keeps
counting the remaining datasets even after the flag flipped. -/
def resetStep (maxG : Nat) (acc : Bool × (String → Option Nat)) (d : String) :
    Bool × (String → Option Nat) :=
  if acc.2 d = some maxG then (false, acc.2)
  else
    (acc.1, fun d2 =>
      if d2 = d then
        some (match acc.2 d with
          | some c => c + 1
          | none => 1)
      else acc.2 d2)

/-- The `filters.map` of `resetFilterGpuMode`, with the mutable
`gpuPerDataset` object threaded through as the per-dataset count state. -/
def resetFilterGpuModeAux (maxG : Nat) (counts : String → Option Nat) :
    List Filter → List Filter
  | [] => []
  | f :: rest =>
    if f.gpu then
      let st := f.dataId.foldl (resetStep maxG) (true, counts)
      (if st.1 then f else setGpu false f) :: resetFilterGpuModeAux maxG st.2 rest
    else
      f :: resetFilterGpuModeAux maxG counts rest

/-- `resetFilterGpuMode` (lines 122–145): `gpuPerDataset` starts empty. -/
def resetFilterGpuMode (maxG : Nat) (filters : List Filter) : List Filter :=
  resetFilterGpuModeAux maxG (fun _ => none) filters

/-- `Number.MIN_SAFE_INTEGER`. -/
def minSafeInteger : Int := -(2 ^ 53 - 1)

/-- The row value relevant to a filter: from `mappedValue` at the row's
index when `mappedValue` is present (JS arrays, even empty ones, are
truthy), else from the raw row fields at `fieldIdx`; `none` models a
`null`/`undefined` read. -/
def rowValue {α : Type} (f : Filter) (getIndex : α → Nat)
    (getData : α → List (Option Int)) (d : α) : Option Int :=
  match f.mappedValue with
  | some mv => (mv.get? (getIndex d)).join
  | none => ((getData d).get? f.fieldIdx).join

/-- `getFilterValueAccessor` (lines 165–181): per row, one value per
channel; empty channels yield 0; a `null`/`undefined` value yields
`Number.MIN_SAFE_INTEGER`; otherwise the value minus `filter.domain[0]`
(reads assume a configured `[min, max]` domain; a missing domain yields
`NaN` in JS, which is outside this model). -/
def getFilterValueAccessor {α : Type} (channels : List (Option Filter))
    (getIndex : α → Nat) (getData : α → List (Option Int)) (d : α) : List Int :=
  channels.map fun filter =>
    match filter with
    | none => 0
    | some f =>
      match rowValue f getIndex getData d with
      | some v => v - f.domain.headD 0
      | none => minSafeInteger

/-- The `filters.find` of `getGpuFilterProps` for channel `i`: the first
filter that is a GPU filter, touches the dataset, and holds channel `i` at
the dataset's position (`f.gpuChannel[f.dataId.indexOf(dataId)] === i`). -/
def gpuChannelFilter (filters : List Filter) (dataId : String) (i : Nat) : Option Filter :=
  filters.find? fun f =>
    f.gpu &&
    f.dataId.contains dataId &&
    (chanRead f.gpuChannel (f.dataId.indexOf dataId) == some (JsVal.num i))

/-- Result record of `getGpuFilterProps`; the value accessor of the source
is `getFilterValueAccessor` applied to the `channels` field, and a trigger
entry `none` is the null marker for an empty channel. -/
structure GpuFilterProps where
  filterRange : List (Int × Int)
  filterValueUpdateTriggers : List (Option String)
  channels : List (Option Filter)
  deriving Repr

/-- `getGpuFilterProps` (lines 189–217): for each channel index in
`[0, maxG)`, the occupying filter (if any) contributes
`[value[0] - domain[0], value[1] - domain[0]]` to the range table and its
per-dataset display name to the update triggers; empty channels contribute
`[0, 0]` and a null trigger. -/
def getGpuFilterProps (maxG : Nat) (filters : List Filter) (dataId : String) :
    GpuFilterProps :=
  let chans := (List.range maxG).map fun i => gpuChannelFilter filters dataId i
  { filterRange := chans.map fun c =>
      match c with
      | some f => (f.value.getD 0 0 - f.domain.getD 0 0, f.value.getD 1 0 - f.domain.getD 0 0)
      | none => (0, 0)
    filterValueUpdateTriggers := chans.map fun c =>
      match c with
      | some f => f.name.get? (f.dataId.indexOf dataId)
      | none => none
    channels := chans }

/-! Concrete filter collections used to settle the claims. -/

/-- Build a filter with the fields relevant to channel allocation. -/
def mkFilter (id : Nat) (dataId : List String) (gpu : Bool) (gc : Option (List Chan)) : Filter :=
  { id := id, dataId := dataId, gpu := gpu, gpuChannel := gc,
    value := [], domain := [], name := [], fieldIdx := 0, mappedValue := none }

/-- Every stored channel index of every filter lies in `[0, maxG)`. -/
def chansInRange (maxG : Nat) (filters : List Filter) : Bool :=
  filters.all fun f =>
    (f.gpuChannel.getD []).all fun slot =>
      match slot with
      | some (JsVal.num n) => n < maxG
      | _ => true

/-- The injectivity invariant claimed for the output of `assignGpuChannels`:
no two distinct filters that are both GPU filters on dataset `d` hold the
same finitely assigned channel at `d`'s position. -/
def gpuChannelInjective (filters : List Filter) (d : String) : Prop :=
  ∀ f ∈ filters, ∀ g ∈ filters,
    f.id ≠ g.id → f.gpu = true → g.gpu = true → d ∈ f.dataId → d ∈ g.dataId →
    isFiniteChan (chanAtDataset f d) = true → chanAtDataset f d ≠ chanAtDataset g d

instance gpuChannelInjectiveDecidable (filters : List Filter) (d : String) :
    Decidable (gpuChannelInjective filters d) := by
  unfold gpuChannelInjective
  infer_instance

/-- Input for claim C1: `MAX_GPU_FILTERS = 4`; four GPU filters on `d1`
holding channels 0–3, plus a fifth GPU filter on `d1` whose pre-existing
channel 0 collides with the first filter. All ids are distinct and every
stored channel is in range. -/
def c1In : List Filter :=
  [ mkFilter 1 ["d1"] true (some [some (JsVal.num 0)]),
    mkFilter 2 ["d1"] true (some [some (JsVal.num 1)]),
    mkFilter 3 ["d1"] true (some [some (JsVal.num 2)]),
    mkFilter 4 ["d1"] true (some [some (JsVal.num 3)]),
    mkFilter 5 ["d1"] true (some [some (JsVal.num 0)]) ]

/-- Input filter for claim C2: a GPU filter over two datasets with no
pre-existing `gpuChannel`. -/
def c2F : Filter := mkFilter 10 ["d1", "d2"] true none

/-- Collection for claim C2: four GPU filters already occupying channels
0–3 of dataset `d2` (so `d2` has no free channel). -/
def c2Others : List Filter :=
  [ mkFilter 1 ["d2"] true (some [some (JsVal.num 0)]),
    mkFilter 2 ["d2"] true (some [some (JsVal.num 1)]),
    mkFilter 3 ["d2"] true (some [some (JsVal.num 2)]),
    mkFilter 4 ["d2"] true (some [some (JsVal.num 3)]) ]

/-- Input for claim C3: `MAX_GPU_FILTERS = 1`; the second filter spans
`dA` and `dB`, and `dB` is already consumed by the first filter. -/
def c3In : List Filter :=
  [ mkFilter 1 ["dB"] true none,
    mkFilter 2 ["dA", "dB"] true none,
    mkFilter 3 ["dA"] true none ]

/-- Input filter for claim C4: a GPU filter on `d1`. -/
def c4F : Filter := mkFilter 9 ["d1"] true none

/-- Collection for claim C4: `MAX_GPU_FILTERS = 2` other GPU filters
already touching `d1`. -/
def c4Fs : List Filter :=
  [ mkFilter 1 ["d1"] true (some [some (JsVal.num 0)]),
    mkFilter 2 ["d1"] true (some [some (JsVal.num 1)]) ]

/-- Input for claim C5: `MAX_GPU_FILTERS = 2`. Filters 1 and 2 both hold
channel 0 of `d1`; filter 3 spans `d1` (channel 1) and `d2` with an unset
(`null`) slot while `d2` is full (filters 4 and 5); in the first pass
filter 3 is downgraded but keeps blocking nothing afterwards, so the
second pass moves filter 1. -/
def c5In : List Filter :=
  [ mkFilter 1 ["d1"] true (some [some (JsVal.num 0)]),
    mkFilter 2 ["d1"] true (some [some (JsVal.num 0)]),
    mkFilter 3 ["d1", "d2"] true (some [some (JsVal.num 1), some JsVal.nullv]),
    mkFilter 4 ["d2"] true (some [some (JsVal.num 0)]),
    mkFilter 5 ["d2"] true (some [some (JsVal.num 1)]) ]

/-- Filter F1 of the §8 scenario (claim C6). -/
def c6F1 : Filter :=
  { id := 1, dataId := ["d1"], gpu := true, gpuChannel := none,
    value := [10, 20], domain := [0, 100], name := ["n1"], fieldIdx := 0,
    mappedValue := none }

/-- Filter F2 of the §8 scenario (claim C6). -/
def c6F2 : Filter :=
  { id := 2, dataId := ["d1"], gpu := true, gpuChannel := none,
    value := [5, 15], domain := [0, 50], name := ["n2"], fieldIdx := 0,
    mappedValue := none }

/-- Occupied-channel filter used to witness claim C9: holds channel 0 of
`d1`, has `mappedValue` `[7]` and domain `[2, 10]`. -/
def wF9 : Filter :=
  { id := 1, dataId := ["d1"], gpu := true, gpuChannel := some [some (JsVal.num 0)],
    value := [3, 9], domain := [2, 10], name := ["n"], fieldIdx := 0,
    mappedValue := some [some 7] }

/-! Abstractions used by the corrected statement of claim C3. -/

/-- Number of filters in `filters` that request GPU mode and touch
dataset `d`. Applied to a prefix of the collection it is the rank a later
filter has in the admission order for `d`. -/
def gpuTouchCount (filters : List Filter) (d : String) : Nat :=
  (filters.filter fun g => g.gpu && decide (d ∈ g.dataId)).length

/-- Count state of `resetFilterGpuMode` as a function of how many
GPU-requesting filters have touched each dataset so far: absent below one
touch, then saturating at `maxG`. -/
def countsOf (maxG : Nat) (prior : String → Nat) : String → Option Nat :=
  fun d => if prior d = 0 then none else some (min maxG (prior d))

/-- Bump the touch tally once for every dataset in `l`. -/
def addTouch (prior : String → Nat) (l : List String) : String → Nat :=
  fun d => prior d + (if d ∈ l then 1 else 0)

/-- Admission-order filters for the witness of the corrected claim C3:
three GPU filters on the same dataset `D`. -/
def wA : Filter := mkFilter 1 ["D"] true none

/-- Second witness filter for the corrected claim C3. -/
def wB : Filter := mkFilter 2 ["D"] true none

/-- Third witness filter for the corrected claim C3. -/
def wC : Filter := mkFilter 3 ["D"] true none

/-! Helper lemmas shared by the theorems below. -/

lemma resetAux_cons_gpu (maxG : Nat) (counts : String → Option Nat) (f0 : Filter)
    (rest : List Filter) (hg : f0.gpu = true) :
    resetFilterGpuModeAux maxG counts (f0 :: rest)
      = (if (f0.dataId.foldl (resetStep maxG) (true, counts)).1 then f0 else setGpu false f0)
        :: resetFilterGpuModeAux maxG (f0.dataId.foldl (resetStep maxG) (true, counts)).2 rest := by
  simp [resetFilterGpuModeAux, hg]

lemma resetAux_cons_cpu (maxG : Nat) (counts : String → Option Nat) (f0 : Filter)
    (rest : List Filter) (hg : f0.gpu = false) :
    resetFilterGpuModeAux maxG counts (f0 :: rest)
      = f0 :: resetFilterGpuModeAux maxG counts rest := by
  simp [resetFilterGpuModeAux, hg]

lemma resetAux_length (maxG : Nat) :
    ∀ (l : List Filter) (counts : String → Option Nat),
      (resetFilterGpuModeAux maxG counts l).length = l.length := by
  intro l
  induction l with
  | nil => intro counts; rfl
  | cons f0 rest ih =>
    intro counts
    by_cases hg : f0.gpu = true
    · rw [resetAux_cons_gpu maxG counts f0 rest hg]
      simp [ih]
    · rw [resetAux_cons_cpu maxG counts f0 rest (by simpa using hg)]
      simp [ih]

lemma resetAux_frame (maxG : Nat) :
    ∀ (l : List Filter) (counts : String → Option Nat) (i : Nat) (f : Filter),
      l.get? i = some f →
      (resetFilterGpuModeAux maxG counts l).get? i = some f ∨
      ((resetFilterGpuModeAux maxG counts l).get? i = some (setGpu false f) ∧ f.gpu = true) := by
  intro l
  induction l with
  | nil =>
    intro counts i f h
    rw [List.get?_nil] at h
    cases h
  | cons f0 rest ih =>
    intro counts i f h
    by_cases hg : f0.gpu = true
    · rw [resetAux_cons_gpu maxG counts f0 rest hg]
      cases i with
      | zero =>
        rw [List.get?_cons_zero, Option.some_inj] at h
        subst h
        by_cases hs : (f0.dataId.foldl (resetStep maxG) (true, counts)).1 = true
        · left
          simp [hs]
        · right
          refine ⟨?_, hg⟩
          simp only [Bool.not_eq_true] at hs
          simp [hs]
      | succ n =>
        rw [List.get?_cons_succ] at h ⊢
        exact ih _ n f h
    · rw [resetAux_cons_cpu maxG counts f0 rest (by simpa using hg)]
      cases i with
      | zero =>
        rw [List.get?_cons_zero, Option.some_inj] at h
        subst h
        left
        rw [List.get?_cons_zero]
      | succ n =>
        rw [List.get?_cons_succ] at h ⊢
        exact ih _ n f h

lemma all_congr_mem {l : List String} {p q : String → Bool}
    (h : ∀ x ∈ l, p x = q x) : l.all p = l.all q := by
  induction l with
  | nil => rfl
  | cons a t ih =>
    simp only [List.all_cons]
    rw [h a (by simp), ih fun x hx => h x (by simp [hx])]

lemma gpuTouchCount_nil (d : String) : gpuTouchCount [] d = 0 := rfl

lemma gpuTouchCount_cons (f0 : Filter) (t : List Filter) (d : String) :
    gpuTouchCount (f0 :: t) d
      = (if f0.gpu && decide (d ∈ f0.dataId) then 1 else 0) + gpuTouchCount t d := by
  unfold gpuTouchCount
  rw [List.filter_cons]
  by_cases h : (f0.gpu && decide (d ∈ f0.dataId)) = true
  · rw [if_pos h, if_pos h, List.length_cons]
    omega
  · rw [if_neg h, if_neg h]
    omega

lemma addTouch_nil (prior : String → Nat) : addTouch prior [] = prior := by
  funext d
  simp [addTouch]

lemma addTouch_cons (prior : String → Nat) (d : String) (rest : List String)
    (hd : d ∉ rest) :
    addTouch (addTouch prior [d]) rest = addTouch prior (d :: rest) := by
  funext d2
  simp only [addTouch, List.mem_singleton, List.mem_cons]
  by_cases he : d2 = d
  · subst he
    simp [hd]
  · simp [he]

/-- The inner `forEach` of `resetFilterGpuMode` over a duplicate-free
`dataId` list: starting from the saturated count state of `prior`, it
clears the local `gpu` flag iff some dataset of the list has already been
touched `maxG` times, and adds one touch per dataset to the state. -/
lemma resetFold_spec (maxG : Nat) (hmax : 1 ≤ maxG) :
    ∀ (l : List String), l.Nodup → ∀ (g0 : Bool) (prior : String → Nat),
      l.foldl (resetStep maxG) (g0, countsOf maxG prior)
        = (g0 && l.all fun d => decide (prior d < maxG),
           countsOf maxG (addTouch prior l)) := by
  intro l
  induction l with
  | nil =>
    intro _ g0 prior
    simp only [List.foldl_nil, List.all_nil, Bool.and_true, addTouch_nil]
  | cons d rest ih =>
    intro hnd g0 prior
    have hd_rest : d ∉ rest := (List.nodup_cons.mp hnd).1
    have hrest : rest.Nodup := (List.nodup_cons.mp hnd).2
    rw [List.foldl_cons]
    by_cases hlt : prior d < maxG
    · have hcount : countsOf maxG prior d ≠ some maxG := by
        unfold countsOf
        by_cases h0 : prior d = 0
        · simp [h0]
        · rw [if_neg h0, min_eq_right (le_of_lt hlt)]
          intro hcon
          rw [Option.some_inj] at hcon
          omega
      have hstep : resetStep maxG (g0, countsOf maxG prior) d
          = (g0, fun d2 =>
              if d2 = d then
                some (match countsOf maxG prior d with
                  | some c => c + 1
                  | none => 1)
              else countsOf maxG prior d2) := by
        simp only [resetStep]
        rw [if_neg hcount]
      have hbump : (fun d2 =>
              if d2 = d then
                some (match countsOf maxG prior d with
                  | some c => c + 1
                  | none => 1)
              else countsOf maxG prior d2)
          = countsOf maxG (addTouch prior [d]) := by
        funext d2
        by_cases he : d2 = d
        · subst he
          by_cases h0 : prior d2 = 0
          · have hmin1 : min maxG 1 = 1 := min_eq_right hmax
            simp [countsOf, addTouch, h0, hmin1]
          · have hminp : min maxG (prior d2) = prior d2 := min_eq_right (le_of_lt hlt)
            have hmins : min maxG (prior d2 + 1) = prior d2 + 1 := min_eq_right (by omega)
            simp [countsOf, addTouch, h0, hminp, hmins]
        · simp [countsOf, addTouch, he]
      rw [hstep, hbump, ih hrest g0 (addTouch prior [d])]
      have hall : (rest.all fun d2 => decide (addTouch prior [d] d2 < maxG))
          = rest.all fun d2 => decide (prior d2 < maxG) := by
        refine all_congr_mem fun x hx => ?_
        have hx_ne : x ≠ d := fun he => hd_rest (he ▸ hx)
        simp [addTouch, hx_ne]
      rw [hall, addTouch_cons prior d rest hd_rest]
      have hb : (List.all (d :: rest) fun d2 => decide (prior d2 < maxG))
          = rest.all fun d2 => decide (prior d2 < maxG) := by
        rw [List.all_cons]
        simp [hlt]
      rw [hb]
    · have hge : maxG ≤ prior d := by omega
      have h0 : prior d ≠ 0 := by omega
      have hminl : min maxG (prior d) = maxG := min_eq_left hge
      have hcount : countsOf maxG prior d = some maxG := by
        simp [countsOf, h0, hminl]
      have hstep : resetStep maxG (g0, countsOf maxG prior) d
          = (false, countsOf maxG prior) := by
        simp only [resetStep]
        rw [if_pos hcount]
      rw [hstep, ih hrest false prior]
      have hco : countsOf maxG (addTouch prior rest)
          = countsOf maxG (addTouch prior (d :: rest)) := by
        funext d2
        by_cases he : d2 = d
        · subst he
          have hc1 : addTouch prior rest d2 = prior d2 := by simp [addTouch, hd_rest]
          have hc2 : addTouch prior (d2 :: rest) d2 = prior d2 + 1 := by simp [addTouch]
          have hmins : min maxG (prior d2 + 1) = maxG := min_eq_left (by omega)
          simp only [countsOf, hc1, hc2]
          rw [if_neg h0, if_neg (by omega : ¬ (prior d2 + 1 = 0)), hminl, hmins]
        · have hAt : addTouch prior (d :: rest) d2 = addTouch prior rest d2 := by
            simp [addTouch, he]
          simp only [countsOf]
          rw [hAt]
      rw [hco]
      have hb2 : (g0 && List.all (d :: rest) fun d2 => decide (prior d2 < maxG)) = false := by
        rw [List.all_cons]
        simp [hlt]
      rw [hb2]
      simp

/-- The outer `map` of `resetFilterGpuMode`, relative to a touch tally
`prior` of datasets already consumed before the current suffix: the filter
at index `i` keeps `gpu = true` iff it requested GPU mode and every one of
its datasets is below capacity counting both `prior` and the
GPU-requesting filters earlier in the suffix. -/
lemma resetAux_rank (maxG : Nat) (hmax : 1 ≤ maxG) :
    ∀ (l : List Filter) (prior : String → Nat),
      (∀ f ∈ l, f.dataId.Nodup) →
      ∀ (i : Nat) (f : Filter), l.get? i = some f →
      (resetFilterGpuModeAux maxG (countsOf maxG prior) l).get? i
        = some (if f.gpu then
                  (if f.dataId.all (fun d => decide (prior d + gpuTouchCount (l.take i) d < maxG))
                   then f else setGpu false f)
                else f) := by
  intro l
  induction l with
  | nil =>
    intro prior _ i f h
    rw [List.get?_nil] at h
    cases h
  | cons f0 rest ih =>
    intro prior hnd i f h
    by_cases hg : f0.gpu = true
    · rw [resetAux_cons_gpu maxG _ f0 rest hg]
      rw [resetFold_spec maxG hmax f0.dataId (hnd f0 (by simp)) true prior]
      cases i with
      | zero =>
        rw [List.get?_cons_zero, Option.some_inj] at h
        subst h
        rw [List.get?_cons_zero]
        simp only [List.take_zero, Bool.true_and, hg, ite_true]
        simp [gpuTouchCount_nil]
      | succ n =>
        rw [List.get?_cons_succ] at h
        rw [List.get?_cons_succ]
        rw [ih (addTouch prior f0.dataId) (fun g hgm => hnd g (by simp [hgm])) n f h]
        have hs : (f.dataId.all fun d =>
                decide (addTouch prior f0.dataId d + gpuTouchCount (rest.take n) d < maxG))
            = f.dataId.all fun d =>
                decide (prior d + gpuTouchCount ((f0 :: rest).take (n + 1)) d < maxG) := by
          refine all_congr_mem fun x _ => ?_
          have harg : addTouch prior f0.dataId x + gpuTouchCount (rest.take n) x
              = prior x + gpuTouchCount ((f0 :: rest).take (n + 1)) x := by
            rw [List.take_succ_cons, gpuTouchCount_cons, hg]
            simp only [addTouch, Bool.true_and, decide_eq_true_eq]
            by_cases hc : x ∈ f0.dataId
            · simp only [hc, ite_true]
              omega
            · simp only [hc, ite_false]
              omega
          simp only [harg]
        rw [hs]
    · have hgf : f0.gpu = false := by simpa using hg
      rw [resetAux_cons_cpu maxG _ f0 rest hgf]
      cases i with
      | zero =>
        rw [List.get?_cons_zero, Option.some_inj] at h
        subst h
        rw [List.get?_cons_zero, hgf]
        simp
      | succ n =>
        rw [List.get?_cons_succ] at h
        rw [List.get?_cons_succ]
        rw [ih prior (fun g hgm => hnd g (by simp [hgm])) n f h]
        have hs : (f.dataId.all fun d =>
                decide (prior d + gpuTouchCount (rest.take n) d < maxG))
            = f.dataId.all fun d =>
                decide (prior d + gpuTouchCount ((f0 :: rest).take (n + 1)) d < maxG) := by
          refine all_congr_mem fun x _ => ?_
          have harg : prior x + gpuTouchCount (rest.take n) x
              = prior x + gpuTouchCount ((f0 :: rest).take (n + 1)) x := by
            rw [List.take_succ_cons, gpuTouchCount_cons, hgf]
            simp
          simp only [harg]
        rw [hs]

/-! Theorems settling the claims. -/

/-- C1: the claim asserts that `assignGpuChannels`, on a collection with
pairwise-distinct ids and all stored channels in `[0, MAX_GPU_FILTERS)`,
returns a collection in which no two distinct GPU filters on a dataset
share a channel index. The code violates this: when a filter's
pre-existing channel conflicts and every channel in range conflicts too,
the `while` loop exhausts without writing, the stale conflicting value
survives `every(Number.isFinite)`, and the filter keeps `gpu = true` with
the colliding channel. On `c1In` (`MAX_GPU_FILTERS = 4`) filters 1 and 5
both end with channel 0 for `d1`. -/
theorem gpu_c1_bug_eval :
    (c1In.map Filter.id).Nodup ∧
    chansInRange 4 c1In = true ∧
    ¬ gpuChannelInjective (assignGpuChannels 4 c1In) "d1" := by
  decide

/-- C2: the claim asserts that `assignGpuChannel` forces `gpu` to false and
clears `gpuChannel` whenever some `dataId` position has no finitely
assigned channel. On `c2F` (datasets `d1`, `d2`, no prior channels) with
`d2` full, position 1 stays unassigned, yet the returned filter keeps
`gpu = true` with the one-entry array `[0]`: the final
`gpuChannel.every(Number.isFinite)` check runs over the too-short array
and passes, contradicting the source's own comment at line 102. -/
theorem gpu_c2_bug_eval :
    c2F.gpu = true ∧
    c2F.dataId.length = 2 ∧
    isFiniteChan (jsGetChan (assignAllChannels 4 c2Others c2F) 1) = false ∧
    (assignGpuChannel 4 c2F c2Others).gpu = true ∧
    (assignGpuChannel 4 c2F c2Others).gpuChannel = some [some (JsVal.num 0)] := by
  decide

/-- C3 counterexample: the claim says that, independently for each dataset
`D`, exactly the first `MAX_GPU_FILTERS` filters in collection order with
`gpu = true` touching `D` keep `gpu = true`. On `c3In` with
`MAX_GPU_FILTERS = 1`, the filter at index 1 is the first GPU filter
touching `dA` (no earlier filter touches `dA`), yet `resetFilterGpuMode`
forces its `gpu` to false (it overflows on `dB`), so the first-`MAX`
filters for `dA` do not all keep `gpu = true`. -/
theorem gpu_c3_counterexample :
    (c3In.get? 1).map (fun f => f.gpu && f.dataId.contains "dA") = some true ∧
    ((c3In.take 1).filter fun f => f.gpu && f.dataId.contains "dA") = [] ∧
    ((resetFilterGpuMode 1 c3In).get? 1).map Filter.gpu = some false := by
  decide

/-- C3 amended: for `1 ≤ MAX_GPU_FILTERS` and filters with duplicate-free
`dataId` lists, a filter keeps `gpu = true` under `resetFilterGpuMode` iff
it requested GPU mode and, for every dataset in its `dataId`, the number
of earlier filters in collection order that request GPU mode and include
that dataset is below `MAX_GPU_FILTERS`; otherwise only its `gpu` flag is
forced false. Slots are thus consumed by every earlier GPU-requesting
filter that touches the dataset, including filters that are themselves
downgraded because of a different dataset — not only by filters that keep
`gpu = true`, which is where the claim's "exactly the first
`MAX_GPU_FILTERS` filters ... keep `gpu = true`" fails. -/
theorem gpu_c3_amended (maxG : Nat) (filters : List Filter) (hmax : 1 ≤ maxG)
    (hnd : ∀ f ∈ filters, f.dataId.Nodup) (i : Nat) (f : Filter)
    (hf : filters.get? i = some f) :
    (resetFilterGpuMode maxG filters).get? i
      = some (if f.gpu then
                (if f.dataId.all (fun d => decide (gpuTouchCount (filters.take i) d < maxG))
                 then f else setGpu false f)
              else f) := by
  have h0 : countsOf maxG (fun _ => 0) = fun _ => none := by
    funext d
    simp [countsOf]
  have h := resetAux_rank maxG hmax filters (fun _ => 0) hnd i f hf
  rw [h0] at h
  unfold resetFilterGpuMode
  simpa using h

/-- Witness for the amended C3 at the spec's admission-order instance:
three GPU filters on one dataset `D` with `MAX_GPU_FILTERS = 2`; the first
two keep `gpu = true` and the third is forced false. -/
theorem gpu_c3_amended_witness :
    (resetFilterGpuMode 2 [wA, wB, wC]).get? 0 = some wA ∧
    (resetFilterGpuMode 2 [wA, wB, wC]).get? 1 = some wB ∧
    (resetFilterGpuMode 2 [wA, wB, wC]).get? 2 = some (setGpu false wC) := by
  refine ⟨?_, ?_, ?_⟩
  · rw [gpu_c3_amended 2 [wA, wB, wC] (by decide) (by decide) 0 wA rfl]
    decide
  · rw [gpu_c3_amended 2 [wA, wB, wC] (by decide) (by decide) 1 wB rfl]
    decide
  · rw [gpu_c3_amended 2 [wA, wB, wC] (by decide) (by decide) 2 wC rfl]
    decide

/-- C4: the claim asserts that `setFilterGpuMode` forces `gpu` to false
when some dataset of the filter already has `MAX_GPU_FILTERS` active GPU
filters. The source's `return set(['gpu'], false, filter)` sits inside a
`forEach` callback, whose return value `forEach` discards, and `set` does
not mutate, so the function always returns its input unchanged: on `c4F`
with both channels of `d1` taken (`MAX_GPU_FILTERS = 2`), `gpu` stays
true, contradicting the function's doc comment. -/
theorem gpu_c4_bug_eval :
    c4F.gpu = true ∧
    (c4Fs.filter fun f => f.dataId.contains "d1" && f.gpu).length = 2 ∧
    setFilterGpuMode 2 c4F c4Fs = c4F ∧
    (setFilterGpuMode 2 c4F c4Fs).gpu = true := by
  decide

/-- C5: the claim asserts `assignGpuChannels` is idempotent. On `c5In`
(`MAX_GPU_FILTERS = 2`) the first pass leaves filters 1 and 2 both on
channel 0 of `d1` (stale conflicting channels are kept) and downgrades
filter 3, which stops blocking channel 1; the second pass therefore moves
filter 1 from channel 0 to channel 1, so the two passes disagree. -/
theorem gpu_c5_bug_eval :
    ((assignGpuChannels 2 c5In).get? 0).map Filter.gpuChannel
      = some (some [some (JsVal.num 0)]) ∧
    ((assignGpuChannels 2 (assignGpuChannels 2 c5In)).get? 0).map Filter.gpuChannel
      = some (some [some (JsVal.num 1)]) ∧
    assignGpuChannels 2 (assignGpuChannels 2 c5In) ≠ assignGpuChannels 2 c5In := by
  decide

/-- C6: on the §8 scenario (`MAX_GPU_FILTERS = 4`), `assignGpuChannels`
gives F1 channel `[0]` and F2 channel `[1]`, both keeping `gpu = true`,
and `getGpuFilterProps` for `d1` returns the range table
`[[10,20], [5,15], [0,0], [0,0]]`. -/
theorem gpu_c6_scenario :
    (assignGpuChannels 4 [c6F1, c6F2]).map Filter.gpuChannel
      = [some [some (JsVal.num 0)], some [some (JsVal.num 1)]] ∧
    (assignGpuChannels 4 [c6F1, c6F2]).map Filter.gpu = [true, true] ∧
    (getGpuFilterProps 4 (assignGpuChannels 4 [c6F1, c6F2]) "d1").filterRange
      = [(10, 20), (5, 15), (0, 0), (0, 0)] := by
  decide

/-- C7: the conflict predicate used during allocation reports a conflict
for `(dataId, channel)` against the filter being placed iff some filter in
the collection with a different id is a GPU filter, includes the dataset,
and holds exactly that channel at the dataset's position; in particular
the placed filter's own assignment (same id) never conflicts with itself. -/
theorem gpu_c7_conflict_iff (dataId : String) (channel : Nat)
    (filters : List Filter) (filter : Filter) :
    hasGpuChannelConflict dataId channel filters filter = true ↔
      ∃ f ∈ filters, f.id ≠ filter.id ∧ f.gpu = true ∧ dataId ∈ f.dataId ∧
        chanRead f.gpuChannel (f.dataId.indexOf dataId) = some (JsVal.num channel) := by
  simp only [hasGpuChannelConflict, findGpuChannel, List.any_eq_true, Bool.and_eq_true,
    bne_iff_ne, beq_iff_eq, List.contains, List.elem_eq_mem, decide_eq_true_eq]
  exact exists_congr fun f => by tauto

/-- C8: on an empty filter collection, `getGpuFilterProps` returns a range
table of `MAX_GPU_FILTERS` entries all `[0, 0]`, every update trigger
mapped to the null marker, and a value accessor that yields an all-zero
sequence of length `MAX_GPU_FILTERS` for every row and every pair of
pluggable index/data readers. -/
theorem gpu_c8_empty {α : Type} (maxG : Nat) (dataId : String)
    (getIndex : α → Nat) (getData : α → List (Option Int)) (row : α) :
    (getGpuFilterProps maxG [] dataId).filterRange = List.replicate maxG (0, 0) ∧
    (getGpuFilterProps maxG [] dataId).filterValueUpdateTriggers
      = List.replicate maxG none ∧
    getFilterValueAccessor (getGpuFilterProps maxG [] dataId).channels getIndex getData row
      = List.replicate maxG 0 := by
  have h : ∀ i, gpuChannelFilter ([] : List Filter) dataId i = none := fun i => rfl
  refine ⟨?_, ?_, ?_⟩ <;>
    simp [getGpuFilterProps, getFilterValueAccessor, h, List.map_const',
      List.length_range, List.map_replicate]

/-- C9: for an occupied channel `i` of `getGpuFilterProps`, the value
accessor maps a row whose relevant value (from `mappedValue` when present,
else the raw fields at `fieldIdx`) is `null`/`undefined` to
`Number.MIN_SAFE_INTEGER`, whatever the domain, and a present value `v` to
`v` minus the filter's domain minimum; the accessor is a total function,
so no error is raised. -/
theorem gpu_c9_accessor {α : Type} (maxG : Nat) (filters : List Filter) (dataId : String)
    (i : Nat) (f : Filter) (getIndex : α → Nat) (getData : α → List (Option Int)) (row : α)
    (hc : (getGpuFilterProps maxG filters dataId).channels.get? i = some (some f)) :
    (rowValue f getIndex getData row = none →
      (getFilterValueAccessor (getGpuFilterProps maxG filters dataId).channels
        getIndex getData row).get? i = some minSafeInteger) ∧
    (∀ v m, rowValue f getIndex getData row = some v → f.domain.get? 0 = some m →
      (getFilterValueAccessor (getGpuFilterProps maxG filters dataId).channels
        getIndex getData row).get? i = some (v - m)) := by
  have hmap : (getFilterValueAccessor (getGpuFilterProps maxG filters dataId).channels
      getIndex getData row).get? i
      = ((getGpuFilterProps maxG filters dataId).channels.get? i).map
          (fun filter => match filter with
            | none => (0 : Int)
            | some g =>
              match rowValue g getIndex getData row with
              | some v => v - g.domain.headD 0
              | none => minSafeInteger) := by
    simp [getFilterValueAccessor, List.get?_eq_getElem?, List.getElem?_map]
  rw [hmap, hc]
  constructor
  · intro h0
    simp [h0]
  · intro v m hv hm
    have hd : f.domain.head?.getD 0 = m := by
      cases hdom : f.domain with
      | nil => rw [hdom] at hm; cases hm
      | cons a t =>
        rw [hdom] at hm
        rw [List.get?_cons_zero, Option.some_inj] at hm
        simp [hm]
    simp [hv, hd]

/-- Witness for C9 at a concrete input: one filter occupying channel 0 of
`d1`, with `mappedValue` `[7]` and domain `[2, 10]`; the accessor yields
`7 - 2` at channel 0. -/
theorem gpu_c9_accessor_witness :
    (getGpuFilterProps 4 [wF9] "d1").channels.get? 0 = some (some wF9) ∧
    (getFilterValueAccessor (getGpuFilterProps 4 [wF9] "d1").channels
      (fun _ : Nat => 0) (fun _ => []) 0).get? 0 = some (7 - 2) :=
  ⟨by decide,
   (gpu_c9_accessor 4 [wF9] "d1" 0 wF9 (fun _ : Nat => 0) (fun _ => []) 0
     (by decide)).2 7 2 rfl rfl⟩

/-- C10: `resetFilterGpuMode` preserves length and order, and each output
element is either the input filter unchanged or the input filter with only
its `gpu` field set to false; the downgrade only happens to filters whose
input `gpu` was true, so `gpu` never flips from false to true and no other
field changes. -/
theorem gpu_c10_frame (maxG : Nat) (filters : List Filter) :
    (resetFilterGpuMode maxG filters).length = filters.length ∧
    ∀ i f, filters.get? i = some f →
      (resetFilterGpuMode maxG filters).get? i = some f ∨
      ((resetFilterGpuMode maxG filters).get? i = some (setGpu false f) ∧ f.gpu = true) :=
  ⟨resetAux_length maxG filters _, fun i f h => resetAux_frame maxG filters _ i f h⟩

/-- Witness for C10 at a concrete input: the collection `c3In` with
`MAX_GPU_FILTERS = 1`, instantiated at index 2. -/
theorem gpu_c10_frame_witness :
    (resetFilterGpuMode 1 c3In).length = c3In.length ∧
    ((resetFilterGpuMode 1 c3In).get? 2 = some (mkFilter 3 ["dA"] true none) ∨
      ((resetFilterGpuMode 1 c3In).get? 2 = some (setGpu false (mkFilter 3 ["dA"] true none)) ∧
        (mkFilter 3 ["dA"] true none).gpu = true)) :=
  ⟨(gpu_c10_frame 1 c3In).1, (gpu_c10_frame 1 c3In).2 2 (mkFilter 3 ["dA"] true none) rfl⟩

end GpuFilterUtils
